import Mathlib

/-!
Verification of the recipe-chatbot backend helper (`backend/utils.py`).

The module holds a fixed system prompt, resolves a model name from the
environment at startup, and exposes one function `get_agent_response` that
normalizes the leading system message of a conversation, calls the external
completion capability, and appends the assistant reply (stripped of leading
and trailing whitespace) to the history.

Embedding conventions:
* A Python `Dict[str, str]` message is modelled as a record with optional
  fields, so that a missing `"role"` or `"content"` key is representable and
  a Python `KeyError` can be modelled faithfully.
* Python exceptions are modelled with `Except PyErr`; the litellm call is an
  opaque capability passed in as a function returning `Except`.
* Python `str.strip()` is modelled by dropping leading and trailing
  whitespace characters from the character list.
-/

/-- A conversation message: a Python dict with (possibly absent) keys
`"role"` and `"content"`. -/
structure Msg where
  role? : Option String
  content? : Option String
deriving DecidableEq, Repr

/-- Errors that the Python code can raise: a `KeyError` on a missing dict
key, an `IndexError` on an out-of-range list index (empty choices), or a
failure raised by the litellm completion call itself. -/
inductive PyErr where
  | keyError (key : String)
  | indexError
  | completionFailure (detail : String)
deriving DecidableEq, Repr

/-- The `"message"` record inside one litellm choice; its `"content"` key
may be absent. -/
structure ChoiceMessage where
  content? : Option String
deriving DecidableEq, Repr

/-- One element of the litellm `"choices"` list; its `"message"` key may be
absent. -/
structure Choice where
  message? : Option ChoiceMessage
deriving DecidableEq, Repr

/-- The dict-shaped result of `litellm.completion`; the `"choices"` key may
be absent or hold an empty list. -/
structure CompletionResult where
  choices? : Option (List Choice)
deriving DecidableEq, Repr

/-- Python `str.strip()`: remove leading and trailing whitespace. -/
def pyStrip (s : String) : String :=
  String.mk (((s.toList.dropWhile Char.isWhitespace).reverse.dropWhile
    Char.isWhitespace).reverse)

/-- The fixed system prompt (`SYSTEM_PROMPT` in `backend/utils.py`),
reproduced with the exact concatenation of the adjacent string literals of
the source. -/
def SYSTEM_PROMPT : String :=
  "As an expert chef who creates easy-to-use recipes for busy families" ++
  "you combine culinary expertise with a deep understanding of family needs," ++
  "creativity, attention to detail, and excellent communication skills." ++
  "You can take complex cooking techniques and simplify them into clear," ++
  "step-by-step instructions that are easy to follow." ++
  "Recipes should be clear, concise, and easy to understand, with minimal jargon" ++
  "and technical cooking terms. They might also provide helpful tips, variations," ++
  "or substitutions for common ingredients." ++
  "Always provide ingredient lists with precise measurements using standard units." ++
  "Many families have specific dietary requirements, such as vegetarian, gluten-free, " ++
  "or dairy-free. As an expert chef you are aware of these limitations and" ++
  "create recipes that accommodate various dietary needs." ++
  "Present only one recipe at a time. If the user doesn\x27t specify what ingredients " ++
  "they have available, assume only basic ingredients are available." ++
  "Be descriptive in the steps of the recipe, so it is easy to follow." ++
  "Have variety in your recipes, don\x27t just recommend the same thing over and over." ++
  "You are to create recipes that use a maximum of 5 ingredients and" ++
  "take 30 minutes or less to prepare." ++
  "Structure all your recipe responses clearly using Markdown for formatting." ++
  "Begin every recipe response with the recipe name as a Level 2 Heading (e.g., ## Amazing Blueberry Muffins)." ++
  "Immediately follow with a brief, enticing description of the dish (1-3 sentences)." ++
  "Next, include a section titled ### Ingredients. List all ingredients using a Markdown unordered list (bullet points)." ++
  "Following ingredients, include a section titled ### Instructions. Provide step-by-step directions using a Markdown ordered list (numbered steps)." ++
  "Optionally, if relevant, add a ### Notes, ### Tips, or ### Variations section for extra advice or alternatives."

/-- The message `\x7b"role": "system", "content": SYSTEM_PROMPT\x7d`
prepended by `get_agent_response` when the history lacks a leading system
message. -/
def systemMessage : Msg :=
  { role? := some "system", content? := some SYSTEM_PROMPT }

/-- The assistant message appended to the history
(`\x7b"role": "assistant", "content": reply\x7d`). -/
def assistantMsg (reply : String) : Msg :=
  { role? := some "assistant", content? := some reply }

/-- `load_dotenv(override=False)`: the process environment after loading the
`.env` file — existing variables win, the dotenv file only fills in absent
keys. -/
def load_dotenv (env dotfile : String → Option String) : String → Option String :=
  fun key =>
    match env key with
    | some v => some v
    | none => dotfile key

/-- `MODEL_NAME = os.environ.get("MODEL_NAME", "gpt-4o-mini")`: the model
identifier resolved from the (dotenv-augmented) environment with a
hardcoded fallback. -/
def MODEL_NAME (env : String → Option String) : String :=
  (env "MODEL_NAME").getD "gpt-4o-mini"

/-- Module import (startup) of `backend/utils.py`: load the dotenv file,
then resolve `MODEL_NAME`. No configuration value is checked, so no
exception path exists; the `Except` type records that startup could in
principle signal an error but never does. -/
def startup (env dotfile : String → Option String) : Except PyErr String :=
  Except.ok (MODEL_NAME (load_dotenv env dotfile))

/-- Lines 70-74 of `backend/utils.py`: the effective history.
`if not messages or messages[0]["role"] != "system"` prepends the system
message; the subscript `messages[0]["role"]` raises `KeyError` when the
first message lacks a `"role"` key. -/
def effectiveHistory (messages : List Msg) : Except PyErr (List Msg) :=
  match messages with
  | [] => Except.ok (systemMessage :: messages)
  | first :: _ =>
    match first.role? with
    | none => Except.error (PyErr.keyError "role")
    | some r =>
      if r ≠ "system" then Except.ok (systemMessage :: messages)
      else Except.ok messages

/-- Lines 81-84 of `backend/utils.py`:
`completion["choices"][0]["message"]["content"].strip()`.
Each subscript may raise `KeyError` (missing key) or `IndexError` (empty
choices list). -/
def extractReply (completion : CompletionResult) : Except PyErr String :=
  match completion.choices? with
  | none => Except.error (PyErr.keyError "choices")
  | some choices =>
    match choices with
    | [] => Except.error PyErr.indexError
    | choice :: _ =>
      match choice.message? with
      | none => Except.error (PyErr.keyError "message")
      | some msg =>
        match msg.content? with
        | none => Except.error (PyErr.keyError "content")
        | some content => Except.ok (pyStrip content)

/-- `get_agent_response` of `backend/utils.py`, parameterized by the litellm
completion capability (`complete model messages`) and the resolved model
name. It computes the effective history, calls the capability once with the
full history, extracts and strips the reply, and returns the effective
history with the assistant message appended. -/
def get_agent_response
    (complete : String → List Msg → Except PyErr CompletionResult)
    (model : String)
    (messages : List Msg) : Except PyErr (List Msg) := do
  let current_messages ← effectiveHistory messages
  let completion ← complete model current_messages
  let assistant_reply_content ← extractReply completion
  pure (current_messages ++ [assistantMsg assistant_reply_content])

example : pyStrip "  Hello there  " = "Hello there" := by decide

example :
    effectiveHistory [{ role? := some "user", content? := some "hi" }] =
      Except.ok [systemMessage, { role? := some "user", content? := some "hi" }] := by
  rfl

/-- The effective history is either the input itself or the input with the
fixed system message prepended. -/
theorem effectiveHistory_ok_cases (h eh : List Msg)
    (heh : effectiveHistory h = Except.ok eh) :
    eh = systemMessage :: h ∨ eh = h := by
  cases h with
  | nil =>
    simp [effectiveHistory] at heh
    exact Or.inl heh.symm
  | cons first rest =>
    cases hr : first.role? with
    | none => simp [effectiveHistory, hr] at heh
    | some r =>
      by_cases hsys : r = "system"
      · simp [effectiveHistory, hr, hsys] at heh
        exact Or.inr heh.symm
      · simp [effectiveHistory, hr, hsys] at heh
        exact Or.inl heh.symm

/-- Unfolding of `get_agent_response` once the effective history is known. -/
theorem ga_eq (complete : String → List Msg → Except PyErr CompletionResult)
    (model : String) (h eh : List Msg)
    (heh : effectiveHistory h = Except.ok eh) :
    get_agent_response complete model h =
      Except.bind (complete model eh) (fun completion =>
        Except.bind (extractReply completion) (fun reply =>
          Except.ok (eh ++ [assistantMsg reply]))) := by
  simp only [get_agent_response, bind, heh]
  rfl

/-- Successful runs of `get_agent_response` decompose into a successful
completion call on the effective history, a successful reply extraction,
and the appended assistant message. -/
theorem ga_ok_shape (complete : String → List Msg → Except PyErr CompletionResult)
    (model : String) (h eh out : List Msg)
    (heh : effectiveHistory h = Except.ok eh)
    (hout : get_agent_response complete model h = Except.ok out) :
    ∃ c reply, complete model eh = Except.ok c ∧
      extractReply c = Except.ok reply ∧ out = eh ++ [assistantMsg reply] := by
  rw [ga_eq complete model h eh heh] at hout
  cases hc : complete model eh with
  | error e => rw [hc] at hout; simp [Except.bind] at hout
  | ok c =>
    rw [hc] at hout
    simp only [Except.bind] at hout
    cases hr : extractReply c with
    | error e => rw [hr] at hout; simp [Except.bind] at hout
    | ok reply =>
      rw [hr] at hout
      simp only [Except.bind, Except.ok.injEq] at hout
      exact ⟨c, reply, rfl, hr, hout.symm⟩

/-- Running `get_agent_response` when every stage succeeds. -/
theorem ga_run (complete : String → List Msg → Except PyErr CompletionResult)
    (model : String) (h eh : List Msg) (c : CompletionResult) (reply : String)
    (heh : effectiveHistory h = Except.ok eh)
    (hc : complete model eh = Except.ok c)
    (hr : extractReply c = Except.ok reply) :
    get_agent_response complete model h = Except.ok (eh ++ [assistantMsg reply]) := by
  rw [ga_eq complete model h eh heh, hc]
  simp [Except.bind, hr]

/-- When the role lookup on the first message fails, the whole call fails
with the same error: the capability is never consulted. -/
theorem ga_error_of_effective
    (complete : String → List Msg → Except PyErr CompletionResult)
    (model : String) (h : List Msg) (e : PyErr)
    (heh : effectiveHistory h = Except.error e) :
    get_agent_response complete model h = Except.error e := by
  simp only [get_agent_response, bind, heh]
  rfl

/-- Whether an `Except` result is a success. -/
def isOkResult {α : Type} (r : Except PyErr α) : Bool :=
  match r with
  | Except.ok _ => true
  | Except.error _ => false

/-- Whether an error is a failure raised by the completion call itself, as
opposed to a `KeyError` or `IndexError` raised while reading its result. -/
def isCompletionFailure : PyErr → Bool
  | PyErr.completionFailure _ => true
  | _ => false

/-- Every error of the reply-extraction step is a `KeyError` or an
`IndexError`, never a completion failure. -/
theorem extractReply_error_not_failure (c : CompletionResult) (e : PyErr)
    (he : extractReply c = Except.error e) : isCompletionFailure e = false := by
  rcases c with ⟨choices?⟩
  cases choices? with
  | none =>
    simp only [extractReply, Except.error.injEq] at he
    rw [← he]; rfl
  | some choices =>
    cases choices with
    | nil =>
      simp only [extractReply, Except.error.injEq] at he
      rw [← he]; rfl
    | cons choice rest =>
      rcases choice with ⟨message?⟩
      cases message? with
      | none =>
        simp only [extractReply, Except.error.injEq] at he
        rw [← he]; rfl
      | some msg =>
        rcases msg with ⟨content?⟩
        cases content? with
        | none =>
          simp only [extractReply, Except.error.injEq] at he
          rw [← he]; rfl
        | some content => simp [extractReply] at he

/- Concrete fixtures used by the witnesses below. -/

/-- A plain user message. -/
def userHi : Msg := { role? := some "user", content? := some "hi" }

/-- A caller-supplied system message whose content differs from
`SYSTEM_PROMPT`. -/
def customSystem : Msg := { role? := some "system", content? := some "custom prompt" }

/-- A message lacking the `"role"` key. -/
def roleLess : Msg := { role? := none, content? := some "hi" }

/-- A well-formed completion result with one choice carrying the text `s`. -/
def okResult (s : String) : CompletionResult :=
  { choices? := some [{ message? := some { content? := some s } }] }

/-- A capability that always succeeds with the text `s`. -/
def constComplete (s : String) : String → List Msg → Except PyErr CompletionResult :=
  fun _ _ => Except.ok (okResult s)

/-- A second capability definition, pointwise equal to `constComplete` but
not syntactically identical to it. -/
def constCompleteB (s : String) : String → List Msg → Except PyErr CompletionResult :=
  fun _ messages => Except.ok (okResult (if messages = messages then s else ""))

/-- A capability that always fails with a provider error. -/
def failComplete : String → List Msg → Except PyErr CompletionResult :=
  fun _ _ => Except.error (PyErr.completionFailure "network")

/-- A capability returning a result whose choices list is empty. -/
def emptyChoicesComplete : String → List Msg → Except PyErr CompletionResult :=
  fun _ _ => Except.ok { choices? := some [] }

/- Claim theorems -/

/-- C1: for every history that is empty or whose first element carries a
role other than "system", the effective history used by
`get_agent_response` is a new sequence consisting of one system message
with content `SYSTEM_PROMPT` followed by all elements of the input in
order, and on success the returned conversation is exactly that effective
history with the assistant reply appended — nothing removed. -/
theorem C1_default_prefixing
    (complete : String → List Msg → Except PyErr CompletionResult)
    (model : String) (h : List Msg) (c : CompletionResult) (reply : String)
    (hyp : h = [] ∨ ∃ first rest r, h = first :: rest ∧ first.role? = some r ∧ r ≠ "system")
    (hc : complete model (systemMessage :: h) = Except.ok c)
    (hr : extractReply c = Except.ok reply) :
    effectiveHistory h = Except.ok (systemMessage :: h) ∧
    get_agent_response complete model h =
      Except.ok ((systemMessage :: h) ++ [assistantMsg reply]) := by
  have heh : effectiveHistory h = Except.ok (systemMessage :: h) := by
    rcases hyp with rfl | ⟨first, rest, r, rfl, hrole, hne⟩
    · rfl
    · simp [effectiveHistory, hrole, hne]
  exact ⟨heh, ga_run complete model h _ c reply heh hc hr⟩

/-- C1 witness: a single user message gets the system prompt prepended and
the stripped reply appended. -/
theorem C1_default_prefixing_witness :
    effectiveHistory [userHi] = Except.ok (systemMessage :: [userHi]) ∧
    get_agent_response (constComplete " yum ") "gpt-4o-mini" [userHi] =
      Except.ok ((systemMessage :: [userHi]) ++ [assistantMsg (pyStrip " yum ")]) :=
  C1_default_prefixing (constComplete " yum ") "gpt-4o-mini" [userHi]
    (okResult " yum ") (pyStrip " yum ")
    (Or.inr ⟨userHi, [], "user", rfl, rfl, by decide⟩) rfl rfl

/-- C2: for every non-empty history whose first element has role "system",
`get_agent_response` uses the history unchanged as the effective history:
the returned conversation minus its final appended assistant message equals
the input exactly, the caller-supplied system message is not overridden
(its content is unconstrained), and no second system message is inserted. -/
theorem C2_idempotent_prefixing
    (complete : String → List Msg → Except PyErr CompletionResult)
    (model : String) (first : Msg) (rest : List Msg) (c : CompletionResult) (reply : String)
    (hrole : first.role? = some "system")
    (hc : complete model (first :: rest) = Except.ok c)
    (hr : extractReply c = Except.ok reply) :
    effectiveHistory (first :: rest) = Except.ok (first :: rest) ∧
    get_agent_response complete model (first :: rest) =
      Except.ok ((first :: rest) ++ [assistantMsg reply]) ∧
    ((first :: rest) ++ [assistantMsg reply]).dropLast = first :: rest := by
  have heh : effectiveHistory (first :: rest) = Except.ok (first :: rest) := by
    simp [effectiveHistory, hrole]
  exact ⟨heh, ga_run complete model (first :: rest) _ c reply heh hc hr,
    by rw [List.dropLast_concat]⟩

/-- C2 witness: a custom system message whose content differs from
`SYSTEM_PROMPT` is preserved, not replaced. -/
theorem C2_idempotent_prefixing_witness :
    effectiveHistory (customSystem :: [userHi]) = Except.ok (customSystem :: [userHi]) ∧
    get_agent_response (constComplete "ok") "gpt-4o-mini" (customSystem :: [userHi]) =
      Except.ok ((customSystem :: [userHi]) ++ [assistantMsg (pyStrip "ok")]) ∧
    ((customSystem :: [userHi]) ++ [assistantMsg (pyStrip "ok")]).dropLast =
      customSystem :: [userHi] :=
  C2_idempotent_prefixing (constComplete "ok") "gpt-4o-mini" customSystem [userHi]
    (okResult "ok") (pyStrip "ok") rfl rfl rfl

/-- C3: on success `get_agent_response` returns the effective history with
exactly one additional trailing assistant message: the length is the
effective history's length plus one, the last element has role "assistant",
and the result is never shorter than the input history. -/
theorem C3_append_growth
    (complete : String → List Msg → Except PyErr CompletionResult)
    (model : String) (h eh : List Msg) (c : CompletionResult) (reply : String)
    (heh : effectiveHistory h = Except.ok eh)
    (hc : complete model eh = Except.ok c)
    (hr : extractReply c = Except.ok reply) :
    get_agent_response complete model h = Except.ok (eh ++ [assistantMsg reply]) ∧
    (eh ++ [assistantMsg reply]).length = eh.length + 1 ∧
    (eh ++ [assistantMsg reply]).getLast? = some (assistantMsg reply) ∧
    (assistantMsg reply).role? = some "assistant" ∧
    h.length ≤ (eh ++ [assistantMsg reply]).length := by
  refine ⟨ga_run complete model h eh c reply heh hc hr, by simp, by simp, rfl, ?_⟩
  rcases effectiveHistory_ok_cases h eh heh with rfl | rfl
  · simp
    omega
  · simp

/-- C3 witness: the empty history grows to a two-element conversation
ending in an assistant message. -/
theorem C3_append_growth_witness :
    get_agent_response (constComplete "hi") "gpt-4o-mini" [] =
      Except.ok ([systemMessage] ++ [assistantMsg (pyStrip "hi")]) ∧
    ([systemMessage] ++ [assistantMsg (pyStrip "hi")]).length = [systemMessage].length + 1 ∧
    ([systemMessage] ++ [assistantMsg (pyStrip "hi")]).getLast? =
      some (assistantMsg (pyStrip "hi")) ∧
    (assistantMsg (pyStrip "hi")).role? = some "assistant" ∧
    List.length ([] : List Msg) ≤ ([systemMessage] ++ [assistantMsg (pyStrip "hi")]).length :=
  C3_append_growth (constComplete "hi") "gpt-4o-mini" [] [systemMessage]
    (okResult "hi") (pyStrip "hi") rfl rfl rfl

/-- C4: when the completion capability succeeds but its result yields no
extractable reply text, `get_agent_response` fails with the extraction
error, which is never a completion failure — a missing choices key gives
`KeyError "choices"` and an empty choices list gives `IndexError`, both
distinct from `completionFailure`. -/
theorem C4_malformed_reply
    (complete : String → List Msg → Except PyErr CompletionResult)
    (model : String) (h eh : List Msg) (c : CompletionResult) (e : PyErr)
    (heh : effectiveHistory h = Except.ok eh)
    (hc : complete model eh = Except.ok c)
    (he : extractReply c = Except.error e) :
    get_agent_response complete model h = Except.error e ∧
    isCompletionFailure e = false ∧
    extractReply { choices? := some [] } = Except.error PyErr.indexError ∧
    extractReply { choices? := none } = Except.error (PyErr.keyError "choices") := by
  refine ⟨?_, extractReply_error_not_failure c e he, rfl, rfl⟩
  rw [ga_eq complete model h eh heh, hc]
  simp [Except.bind, he]

/-- C4 witness: an empty choices list makes the call fail with
`IndexError`, which is not a completion failure. -/
theorem C4_malformed_reply_witness :
    get_agent_response emptyChoicesComplete "gpt-4o-mini" [userHi] =
      Except.error PyErr.indexError ∧
    isCompletionFailure PyErr.indexError = false ∧
    extractReply { choices? := some [] } = Except.error PyErr.indexError ∧
    extractReply { choices? := none } = Except.error (PyErr.keyError "choices") :=
  C4_malformed_reply emptyChoicesComplete "gpt-4o-mini" [userHi]
    (systemMessage :: [userHi]) { choices? := some [] } PyErr.indexError
    rfl rfl rfl

/-- C5 counterexample: with every environment and dotenv entry absent — in
particular MODEL_NAME, the only configuration value this module reads —
startup succeeds with the fallback model name; no error is signaled at
startup, contradicting the claim that a missing essential configuration
value raises a ConfigurationError before any request. -/
theorem C5_counterexample :
    startup (fun _ => none) (fun _ => none) = Except.ok "gpt-4o-mini" ∧
    isOkResult (startup (fun _ => none) (fun _ => none)) = true :=
  ⟨rfl, rfl⟩

/-- C5 (amended): startup never signals an error. The only configuration
value read, MODEL_NAME, is optional: when it is absent from both the
process environment and the dotenv file, startup succeeds with the
hardcoded fallback "gpt-4o-mini", and in every case startup returns a
success value. -/
theorem C5_startup_never_fails (env dotfile : String → Option String)
    (henv : env "MODEL_NAME" = none) (hdot : dotfile "MODEL_NAME" = none) :
    startup env dotfile = Except.ok "gpt-4o-mini" ∧
    isOkResult (startup env dotfile) = true := by
  have hmerge : load_dotenv env dotfile "MODEL_NAME" = none := by
    simp [load_dotenv, henv, hdot]
  constructor
  · simp [startup, MODEL_NAME, hmerge]
  · rfl

/-- C5 witness: an environment holding only an unrelated key still starts
up successfully with the fallback model name. -/
theorem C5_startup_never_fails_witness :
    startup (fun _ => none) (fun k => if k = "OTHER" then some "x" else none) =
      Except.ok "gpt-4o-mini" ∧
    isOkResult (startup (fun _ => none) (fun k => if k = "OTHER" then some "x" else none)) =
      true :=
  C5_startup_never_fails (fun _ => none) (fun k => if k = "OTHER" then some "x" else none)
    rfl rfl

/-- C6: when the completion capability fails, `get_agent_response`
propagates the same failure and returns no conversation — there is no
partial-success state. -/
theorem C6_completion_failure_propagates
    (complete : String → List Msg → Except PyErr CompletionResult)
    (model : String) (h eh : List Msg) (e : PyErr)
    (heh : effectiveHistory h = Except.ok eh)
    (hc : complete model eh = Except.error e) :
    get_agent_response complete model h = Except.error e ∧
    isOkResult (get_agent_response complete model h) = false := by
  have hga : get_agent_response complete model h = Except.error e := by
    rw [ga_eq complete model h eh heh, hc]
    rfl
  exact ⟨hga, by rw [hga]; rfl⟩

/-- C6 witness: a network failure from the capability surfaces unchanged
and no conversation is returned. -/
theorem C6_completion_failure_propagates_witness :
    get_agent_response failComplete "gpt-4o-mini" [userHi] =
      Except.error (PyErr.completionFailure "network") ∧
    isOkResult (get_agent_response failComplete "gpt-4o-mini" [userHi]) = false :=
  C6_completion_failure_propagates failComplete "gpt-4o-mini" [userHi]
    (systemMessage :: [userHi]) (PyErr.completionFailure "network") rfl rfl

/-- C7: the appended assistant message's content is the capability's reply
text with leading and trailing whitespace removed; in particular the reply
"  Hello there  " is appended as "Hello there". -/
theorem C7_whitespace_trimming
    (complete : String → List Msg → Except PyErr CompletionResult)
    (model : String) (h eh : List Msg) (raw : String) (restChoices : List Choice)
    (heh : effectiveHistory h = Except.ok eh)
    (hc : complete model eh = Except.ok
      { choices? := some ({ message? := some { content? := some raw } } :: restChoices) }) :
    get_agent_response complete model h = Except.ok (eh ++ [assistantMsg (pyStrip raw)]) ∧
    pyStrip "  Hello there  " = "Hello there" := by
  exact ⟨ga_run complete model h eh _ (pyStrip raw) heh hc rfl, by decide⟩

/-- C7 witness: the reply "  Hello there  " is appended with content
exactly "Hello there". -/
theorem C7_whitespace_trimming_witness :
    get_agent_response (constComplete "  Hello there  ") "gpt-4o-mini" [userHi] =
      Except.ok ((systemMessage :: [userHi]) ++ [assistantMsg (pyStrip "  Hello there  ")]) ∧
    pyStrip "  Hello there  " = "Hello there" :=
  C7_whitespace_trimming (constComplete "  Hello there  ") "gpt-4o-mini" [userHi]
    (systemMessage :: [userHi]) "  Hello there  " [] rfl rfl

/-- C8: `get_agent_response` never edits the input history: the effective
history is the input itself or the input with one message prepended, the
result is a newly built sequence, and the original input occurs unchanged
and in order inside both the effective history (as a suffix) and the
returned conversation (as a contiguous infix). -/
theorem C8_non_mutation
    (complete : String → List Msg → Except PyErr CompletionResult)
    (model : String) (h eh : List Msg) (c : CompletionResult) (reply : String)
    (heh : effectiveHistory h = Except.ok eh)
    (hc : complete model eh = Except.ok c)
    (hr : extractReply c = Except.ok reply) :
    (eh = systemMessage :: h ∨ eh = h) ∧
    get_agent_response complete model h = Except.ok (eh ++ [assistantMsg reply]) ∧
    List.IsSuffix h eh ∧
    List.IsInfix h (eh ++ [assistantMsg reply]) := by
  have hcases := effectiveHistory_ok_cases h eh heh
  have hsuf : List.IsSuffix h eh := by
    rcases hcases with rfl | rfl
    · exact ⟨[systemMessage], rfl⟩
    · exact ⟨[], rfl⟩
  obtain ⟨t, ht⟩ := hsuf
  refine ⟨hcases, ga_run complete model h eh c reply heh hc hr, ⟨t, ht⟩,
    ⟨t, [assistantMsg reply], ?_⟩⟩
  rw [← ht]

/-- C8 witness: the one-element input survives unchanged inside the
returned conversation. -/
theorem C8_non_mutation_witness :
    (systemMessage :: [userHi] = systemMessage :: [userHi] ∨
      systemMessage :: [userHi] = [userHi]) ∧
    get_agent_response (constComplete "ok") "gpt-4o-mini" [userHi] =
      Except.ok ((systemMessage :: [userHi]) ++ [assistantMsg (pyStrip "ok")]) ∧
    List.IsSuffix [userHi] (systemMessage :: [userHi]) ∧
    List.IsInfix [userHi] ((systemMessage :: [userHi]) ++ [assistantMsg (pyStrip "ok")]) :=
  C8_non_mutation (constComplete "ok") "gpt-4o-mini" [userHi] (systemMessage :: [userHi])
    (okResult "ok") (pyStrip "ok") rfl rfl rfl

/-- C9: the first-element role lookup is partial: a non-empty history whose
first message lacks a "role" key makes the call fail with `KeyError "role"`
for every capability and model — so the capability is never consulted —
while under the precondition that the history is empty or its first element
has a "role" key this error never occurs. -/
theorem C9_role_lookup_partiality
    (complete complete2 : String → List Msg → Except PyErr CompletionResult)
    (model model2 : String) (first : Msg) (rest : List Msg) (h2 : List Msg)
    (hnone : first.role? = none)
    (hpre : h2 = [] ∨ ∃ f t r, h2 = f :: t ∧ f.role? = some r) :
    effectiveHistory (first :: rest) = Except.error (PyErr.keyError "role") ∧
    get_agent_response complete model (first :: rest) =
      Except.error (PyErr.keyError "role") ∧
    get_agent_response complete model (first :: rest) =
      get_agent_response complete2 model2 (first :: rest) ∧
    effectiveHistory h2 ≠ Except.error (PyErr.keyError "role") := by
  have heh : effectiveHistory (first :: rest) = Except.error (PyErr.keyError "role") := by
    simp [effectiveHistory, hnone]
  have h1 := ga_error_of_effective complete model (first :: rest) _ heh
  have h2ga := ga_error_of_effective complete2 model2 (first :: rest) _ heh
  refine ⟨heh, h1, h1.trans h2ga.symm, ?_⟩
  rcases hpre with rfl | ⟨f, t, r, rfl, hfr⟩
  · simp [effectiveHistory]
  · by_cases hsys : r = "system"
    · simp [effectiveHistory, hfr, hsys]
    · simp [effectiveHistory, hfr, hsys]

/-- C9 witness: a first message without a "role" key fails with
`KeyError "role"` under two different capabilities alike, while a history
headed by a message carrying a "role" key never produces that error. -/
theorem C9_role_lookup_partiality_witness :
    effectiveHistory (roleLess :: []) = Except.error (PyErr.keyError "role") ∧
    get_agent_response (constComplete "ok") "gpt-4o-mini" (roleLess :: []) =
      Except.error (PyErr.keyError "role") ∧
    get_agent_response (constComplete "ok") "gpt-4o-mini" (roleLess :: []) =
      get_agent_response failComplete "other-model" (roleLess :: []) ∧
    effectiveHistory [userHi] ≠ Except.error (PyErr.keyError "role") :=
  C9_role_lookup_partiality (constComplete "ok") failComplete "gpt-4o-mini" "other-model"
    roleLess [] [userHi] rfl (Or.inr ⟨userHi, [], "user", rfl, rfl⟩)

/-- C10: `get_agent_response` is deterministic and depends only on its
arguments: for equal input histories and capabilities that return equal
results on equal (model, messages) arguments, the returned conversations
are equal — no hidden state influences the result. -/
theorem C10_deterministic
    (c1 c2 : String → List Msg → Except PyErr CompletionResult)
    (model : String) (h1 h2 : List Msg)
    (hagree : ∀ msgs, c1 model msgs = c2 model msgs)
    (hh : h1 = h2) :
    get_agent_response c1 model h1 = get_agent_response c2 model h2 := by
  subst hh
  cases heh : effectiveHistory h1 with
  | error e =>
    rw [ga_error_of_effective c1 model h1 e heh, ga_error_of_effective c2 model h1 e heh]
  | ok eh =>
    rw [ga_eq c1 model h1 eh heh, ga_eq c2 model h1 eh heh, hagree eh]

/-- C10 witness: two syntactically different but pointwise-equal
capabilities yield identical conversations on the same input. -/
theorem C10_deterministic_witness :
    get_agent_response (constComplete "ok") "gpt-4o-mini" [userHi] =
      get_agent_response (constCompleteB "ok") "gpt-4o-mini" [userHi] :=
  C10_deterministic (constComplete "ok") (constCompleteB "ok") "gpt-4o-mini"
    [userHi] [userHi] (fun msgs => by simp [constComplete, constCompleteB]) rfl
